import Mathlib

/-!
Verification of the signalze brand-mention worker against its specification.

The development shallowly embeds the worker's Python code
(worker/mention_worker/{config,db,pipeline}.py and the source adapters)
as executable Lean definitions: timestamps are integers counting
microseconds, database rows are structures, stateful per-task processing
is a pure function from inputs (task, adapter outcome, counter maps) to
a result record carrying the updated counters, statistics and the trace
of database calls.  Theorems at the end settle the specification claims.
-/

namespace Signalze

/-! ## Configuration parsing (worker/mention_worker/config.py) -/

/-- Python `str.lower()` (character-wise lowercasing). -/
def pyLower (s : String) : String := String.mk (s.data.map Char.toLower)

/-- Embedding of `_to_bool` (config.py lines 48-51): `None` yields the
default; otherwise the lowercased value is tested for membership in
`{"1","true","yes","on"}`. -/
def to_bool (value : Option String) (default : Bool) : Bool :=
  match value with
  | none => default
  | some v => ["1", "true", "yes", "on"].contains (pyLower v)

/-- Python `str.strip()` on the values the worker reads: drop leading
and trailing whitespace. -/
def pyStrip (s : String) : String :=
  String.mk
    (((s.data.dropWhile Char.isWhitespace).reverse.dropWhile
      Char.isWhitespace).reverse)

/-- Digit-sequence accumulator used by `pyIntParse`. -/
def parseDigits (l : List Char) : Option Nat :=
  if l.isEmpty then none
  else
    l.foldl
      (fun acc c =>
        acc.bind fun n => if c.isDigit then some (n * 10 + (c.toNat - 48)) else none)
      (some 0)

/-- Embedding of Python `int(...)` on an already-stripped string: an
optional sign followed by decimal digits; `none` models a raised
`ValueError`. -/
def pyIntParse (s : String) : Option Int :=
  match s.data with
  | [] => none
  | c :: rest =>
    if c = '-' then (parseDigits rest).map (fun n => -(n : Int))
    else if c = '+' then (parseDigits rest).map (fun n => (n : Int))
    else (parseDigits (c :: rest)).map (fun n => (n : Int))

/-- Embedding of `_to_optional_int` (config.py lines 54-63).  The outer
`Option` models control flow: `none` is a raised `ValueError` from
`int(...)`; `some r` is a normal return of `r`.  Unset variables, empty
strings and parsed values below 1 all return `none` (unset). -/
def to_optional_int (value : Option String) : Option (Option Int) :=
  match value with
  | none => some none
  | some v =>
    let stripped := pyStrip v
    if stripped.isEmpty then some none
    else
      match pyIntParse stripped with
      | none => none
      | some parsed => if parsed < 1 then some none else some (some parsed)

/-! ## Source registry (worker/mention_worker/sources/registry.py) -/

/-- Embedding of `SourceDefinition` (registry.py): the fields the claims
need.  `has_builder` records whether `builder` is non-null. -/
structure SourceDefinition where
  key : String
  env_slug : String
  default_enabled : Bool
  free_tier_daily_limit : Option Int
  has_builder : Bool
deriving DecidableEq, Repr

/-- Embedding of `SOURCE_DEFINITIONS` (registry.py), in catalog order. -/
def SOURCE_DEFINITIONS : List SourceDefinition :=
  [ { key := "hackernews", env_slug := "HN", default_enabled := true,
      free_tier_daily_limit := some 2000, has_builder := true },
    { key := "devto", env_slug := "DEVTO", default_enabled := true,
      free_tier_daily_limit := some 1000, has_builder := true },
    { key := "github_discussions", env_slug := "GITHUB_DISCUSSIONS",
      default_enabled := true, free_tier_daily_limit := some 1000,
      has_builder := true },
    { key := "reddit", env_slug := "REDDIT", default_enabled := false,
      free_tier_daily_limit := some 500, has_builder := true },
    { key := "google", env_slug := "GOOGLE", default_enabled := false,
      free_tier_daily_limit := some 100, has_builder := false },
    { key := "brave", env_slug := "BRAVE", default_enabled := false,
      free_tier_daily_limit := some 1000, has_builder := false },
    { key := "producthunt", env_slug := "PRODUCTHUNT", default_enabled := false,
      free_tier_daily_limit := some 500, has_builder := false } ]

/-- Embedding of the per-source daily-limit assembly in `load_settings`
(config.py lines 97-105): parse `SOURCE_<SLUG>_DAILY_REQUEST_LIMIT`;
when free-tier mode is on and the parse yielded unset, install the
registry's free-tier limit.  The outer `Option` again models a raised
`ValueError`. -/
def effective_daily_limit (free_tier_mode : Bool) (env_value : Option String)
    (registry_limit : Option Int) : Option (Option Int) :=
  (to_optional_int env_value).map fun daily_limit =>
    if free_tier_mode && daily_limit.isNone then registry_limit else daily_limit

/-! ## Time and string primitives -/

/-- Microseconds per minute; timestamps in this model are integers
counting microseconds (Python datetimes are microsecond-precision). -/
def usPerMinute : Int := 60000000

/-- Microseconds per UTC day, as a natural number. -/
def usPerDayN : Nat := 86400000000

/-- Python string slicing `s[:n]` (by characters). -/
def pySlice (s : String) (n : Nat) : String := String.mk (s.data.take n)

/-! ## Data-access layer (worker/mention_worker/db.py) -/

/-- A `keyword_source_state` row as the worker writes it. -/
structure SourceStateRow where
  last_checked_at : Option Int
  next_poll_at : Int
  last_error : Option String
deriving DecidableEq, Repr

/-- Embedding of `Database.mark_source_task_success` (db.py lines
123-147): the upsert overwrites `last_checked_at`, `next_poll_at` and
clears `last_error` whether or not a previous row existed. -/
def mark_source_task_success (_prev : Option SourceStateRow) (checked_at : Int)
    (poll_interval_minutes : Int) : SourceStateRow :=
  { last_checked_at := some checked_at,
    next_poll_at := checked_at + (max poll_interval_minutes 1) * usPerMinute,
    last_error := none }

/-- Embedding of `Database.mark_source_task_error` (db.py lines
149-172): the insert column list and the on-conflict update both omit
`last_checked_at`, so a fresh row stores null and an existing row keeps
its value; `next_poll_at` becomes `now + max(backoff_minutes, 1)`
minutes and `last_error` the error sliced to 800 characters. -/
def mark_source_task_error (prev : Option SourceStateRow) (now : Int)
    (error : String) (backoff_minutes : Int) : SourceStateRow :=
  { last_checked_at :=
      match prev with
      | none => none
      | some row => row.last_checked_at,
    next_poll_at := now + (max backoff_minutes 1) * usPerMinute,
    last_error := some (pySlice error 800) }

/-- A `worker_runs` row as `finish_worker_run` leaves it. -/
structure WorkerRunRow where
  status : String
  error : Option String
deriving DecidableEq, Repr

/-- Embedding of `Database.finish_worker_run` (db.py lines 48-69): the
update stores `status` and `error` exactly as passed (no truncation). -/
def finish_worker_run (status : String) (error : Option String) : WorkerRunRow :=
  { status := status, error := error }

/-- Embedding of the failure path of `Worker.run_once` (pipeline.py
lines 58-71): the run row is finished with status failed and
`error = str(exc)` passed through to `finish_worker_run` unmodified. -/
def run_once_failure_record (exc_message : String) : WorkerRunRow :=
  finish_worker_run "failed" (some exc_message)

/-- An `alert_deliveries` row as `mark_alert_retry` leaves it. -/
structure AlertRow where
  status : String
  retry_count : Int
  next_attempt_at : Int
  last_error : Option String
deriving DecidableEq, Repr

/-- Embedding of `Database.mark_alert_retry` (db.py lines 349-373):
status is failed while `retry_count < max_retries`, dead_letter
otherwise; the error is sliced to 800 characters. -/
def mark_alert_retry (retry_count max_retries : Int) (next_attempt_at : Int)
    (error : String) : AlertRow :=
  { status := if retry_count < max_retries then "failed" else "dead_letter",
    retry_count := retry_count,
    next_attempt_at := next_attempt_at,
    last_error := some (pySlice error 800) }

/-- Embedding of the where-clause of `Database.fetch_pending_alerts`
(db.py lines 296-298): an alert row is fetchable iff its status is
pending or failed, its next attempt is due and its retry count is below
the maximum. -/
def alert_fetch_eligible (status : String) (next_attempt_at now : Int)
    (retry_count max_retries : Int) : Bool :=
  (status == "pending" || status == "failed")
    && decide (next_attempt_at ≤ now)
    && decide (retry_count < max_retries)

/-! ## Pipeline (worker/mention_worker/pipeline.py) -/

/-- The settings fields the pipeline reads (config.py `Settings`).
Dictionaries keyed by source key are total maps to `Option`. -/
structure Settings where
  poll_interval_minutes : Int
  overlap_minutes : Int
  per_source_limit : Int
  retry_base_seconds : Int
  retry_max_seconds : Int
  max_alert_retries : Int
  source_poll_interval_minutes : String → Option Int
  source_daily_request_limit : String → Option Int

/-- Embedding of `Settings.poll_interval_for_source` (config.py lines
41-42): dictionary lookup with `poll_interval_minutes` as default. -/
def Settings.poll_interval_for_source (s : Settings) (source : String) : Int :=
  (s.source_poll_interval_minutes source).getD s.poll_interval_minutes

/-- Embedding of `Settings.daily_request_limit_for_source` (config.py
lines 44-45): dictionary lookup defaulting to none. -/
def Settings.daily_request_limit_for_source (s : Settings) (source : String) :
    Option Int :=
  s.source_daily_request_limit source

/-- Embedding of `Worker._retry_delay_seconds` (pipeline.py lines
238-241). -/
def retry_delay_seconds (retry_base_seconds retry_max_seconds : Int)
    (retry_count : Int) : Int :=
  let exponent := max (retry_count - 1) 0
  let delay := retry_base_seconds * 2 ^ exponent.toNat
  min delay retry_max_seconds

/-- Embedding of `Worker._minutes_until_utc_day_rollover` (pipeline.py
lines 252-256).  The argument is the time of day of `now` in
microseconds since the preceding UTC midnight; the delta to the next
midnight is floor-divided to whole minutes with a minimum of 1. -/
def minutes_until_utc_day_rollover (us_of_day : Nat) : Nat :=
  max ((usPerDayN - us_of_day) / 60000000) 1

/-- Embedding of `Worker._source_daily_limit_reached` (pipeline.py lines
246-250). -/
def source_daily_limit_reached (s : Settings) (source : String)
    (source_requests_today : String → Nat) : Bool :=
  match s.daily_request_limit_for_source source with
  | none => false
  | some limit => decide ((source_requests_today source : Int) ≥ limit)

/-- A due source task (models.py `SourceTask`); UUIDs are modelled as
naturals, the watermark as an optional timestamp. -/
structure SourceTask where
  keyword_id : Nat
  user_id : Nat
  brand_id : Option Nat
  query : String
  source : String
  last_checked_at : Option Int

/-- One mention returned by the adapter, paired with the store's
responses for it: the surrogate id returned by `upsert_mention`, whether
`insert_mention_match` created a new row, and whether `enqueue_alert`
created a new row (consulted only when the match was created). -/
structure MentionStep where
  mention_id : Int
  match_created : Bool
  alert_created : Bool
deriving DecidableEq, Repr

/-- The stats counters the source-task loop touches (a `defaultdict`
of integers in the source). -/
structure Stats where
  tasks_polled : Nat := 0
  task_errors : Nat := 0
  tasks_deferred_budget : Nat := 0
  source_mentions_fetched : Nat := 0
  mentions_upserted : Nat := 0
  matches_deduped : Nat := 0
  matches_created : Nat := 0
  alerts_enqueued : Nat := 0
  alerts_deduped : Nat := 0
  tasks_succeeded : Nat := 0
deriving DecidableEq, Repr

/-- Trace of database calls issued by the task loop. -/
inductive DbCall where
  | markSourceTaskError (keyword_id : Nat) (source : String) (error : String)
      (backoff_minutes : Int)
  | upsertMention (mention_id : Int)
  | insertMentionMatch (user_id keyword_id : Nat) (brand_id : Option Nat)
      (mention_id : Int) (matched_query : String)
  | enqueueAlert (user_id keyword_id : Nat) (mention_id : Int)
  | markSourceTaskSuccess (keyword_id : Nat) (source : String) (checked_at : Int)
      (poll_interval_minutes : Int)
deriving DecidableEq, Repr

/-- Python `d[k] = d.get(k, 0) + 1` on a counter map. -/
def bump (m : String → Nat) (k : String) : String → Nat :=
  fun k2 => if k2 = k then m k + 1 else m k2

/-- Embedding of the `since` computation (pipeline.py lines 140-143):
the watermark, defaulting to `now - 1 day`, widened by the overlap
clamped to be nonnegative. -/
def compute_since (s : Settings) (now : Int) (last_checked_at : Option Int) : Int :=
  let default_since := now - (usPerDayN : Int)
  (last_checked_at.getD default_since) - (max s.overlap_minutes 0) * usPerMinute

/-- Embedding of the per-mention body of the task loop (pipeline.py
lines 151-177): upsert the mention, try to insert the match; a deduped
match only counts `matches_deduped`, a created match counts
`matches_created` and enqueues the alert, counting `alerts_enqueued` or
`alerts_deduped` by whether a new alert row was created. -/
def process_mention (task : SourceTask) (step : MentionStep) (st : Stats) :
    Stats × List DbCall :=
  let st1 := { st with mentions_upserted := st.mentions_upserted + 1 }
  if step.match_created then
    let st2 := { st1 with matches_created := st1.matches_created + 1 }
    let st3 :=
      if step.alert_created then
        { st2 with alerts_enqueued := st2.alerts_enqueued + 1 }
      else
        { st2 with alerts_deduped := st2.alerts_deduped + 1 }
    (st3,
     [DbCall.upsertMention step.mention_id,
      DbCall.insertMentionMatch task.user_id task.keyword_id task.brand_id
        step.mention_id task.query,
      DbCall.enqueueAlert task.user_id task.keyword_id step.mention_id])
  else
    ({ st1 with matches_deduped := st1.matches_deduped + 1 },
     [DbCall.upsertMention step.mention_id,
      DbCall.insertMentionMatch task.user_id task.keyword_id task.brand_id
        step.mention_id task.query])

/-- The `for mention in mentions` loop over a task's adapter results. -/
def process_mentions (task : SourceTask) (steps : List MentionStep) (st : Stats) :
    Stats × List DbCall :=
  match steps with
  | [] => (st, [])
  | step :: rest =>
    let out1 := process_mention task step st
    let out2 := process_mentions task rest out1.1
    (out2.1, out1.2 ++ out2.2)

/-- Result of processing one due task. -/
structure TaskResult where
  today : String → Nat
  this_run : String → Nat
  stats : Stats
  calls : List DbCall
  search_invoked : Bool
  since_used : Option Int

/-- Embedding of the per-task body of `Worker._process_source_tasks`
(pipeline.py lines 115-196).  `adapter_present` models
`sources.get(task.source) is not None`; `search_outcome` is the outcome
of the `source_client.search` call (a raise or a list of results, each
paired with the store's responses for it — the store calls themselves do
not raise in this model); `now` is the UTC timestamp taken before the
`since` computation; `us_of_day` is the time of day, in microseconds, of
the timestamp taken in the budget branch. -/
def process_source_task (s : Settings) (task : SourceTask)
    (adapter_present : Bool)
    (search_outcome : Except String (List MentionStep))
    (now : Int) (us_of_day : Nat)
    (today this_run : String → Nat) (st : Stats) : TaskResult :=
  if adapter_present = false then
    { today := today, this_run := this_run,
      stats := { st with task_errors := st.task_errors + 1 },
      calls := [DbCall.markSourceTaskError task.keyword_id task.source
        "Source not enabled in worker" s.poll_interval_minutes],
      search_invoked := false, since_used := none }
  else if source_daily_limit_reached s task.source today then
    { today := today, this_run := this_run,
      stats := { st with tasks_deferred_budget := st.tasks_deferred_budget + 1 },
      calls := [DbCall.markSourceTaskError task.keyword_id task.source
        "Daily source request budget reached; deferred until UTC day rollover"
        (minutes_until_utc_day_rollover us_of_day : Int)],
      search_invoked := false, since_used := none }
  else
    let since := compute_since s now task.last_checked_at
    match search_outcome with
    | Except.error exc =>
      { today := today, this_run := this_run,
        stats := { st with task_errors := st.task_errors + 1 },
        calls := [DbCall.markSourceTaskError task.keyword_id task.source exc
          (s.poll_interval_for_source task.source)],
        search_invoked := true, since_used := some since }
    | Except.ok steps =>
      let today2 := bump today task.source
      let run2 := bump this_run task.source
      let st1 := { st with
        source_mentions_fetched := st.source_mentions_fetched + steps.length }
      let out := process_mentions task steps st1
      { today := today2, this_run := run2,
        stats := { out.1 with tasks_succeeded := out.1.tasks_succeeded + 1 },
        calls := out.2 ++ [DbCall.markSourceTaskSuccess task.keyword_id
          task.source now (s.poll_interval_for_source task.source)],
        search_invoked := true, since_used := some since }

/-! ## Source adapters (worker/mention_worker/sources/) -/

/-- A `MentionCandidate` (models.py) with the published timestamp as an
integer; `raw_payload` is not carried (opaque downstream). -/
structure Mention where
  platform : String
  external_id : String
  url : String
  title : String
  body_excerpt : String
  author : Option String
  community : String
  published_at : Int
deriving DecidableEq, Repr

/-- Python `s.split()`: split on whitespace runs, dropping empty words.
The accumulator holds the current word's characters in reverse. -/
def pySplitWs : List Char → List Char → List String
  | [], acc => if acc.isEmpty then [] else [String.mk acc.reverse]
  | c :: rest, acc =>
    if c.isWhitespace then
      if acc.isEmpty then pySplitWs rest []
      else String.mk acc.reverse :: pySplitWs rest []
    else pySplitWs rest (c :: acc)

/-- Python `" ".join(words)`. -/
def joinSpace : List String → String
  | [] => ""
  | [w] => w
  | w :: rest => w ++ " " ++ joinSpace rest

/-- Python `" ".join(s.split())`: collapse whitespace runs, drop leading
and trailing whitespace. -/
def normalizeWs (s : String) : String := joinSpace (pySplitWs s.data [])

/-- One pass of the regex substitution `re.sub(r"<[^>]+>", " ", text)`:
a complete nonempty tag becomes one space, an empty pair stays literal
and an unclosed tag at end of input is emitted unchanged.  The second
argument buffers the characters read since an opening angle bracket. -/
def tagSubGo : List Char → Option (List Char) → List Char
  | [], none => []
  | [], some buf => '<' :: buf.reverse
  | c :: rest, none =>
    if c = '<' then tagSubGo rest (some []) else c :: tagSubGo rest none
  | c :: rest, some buf =>
    if c = '>' then
      if buf.isEmpty then '<' :: '>' :: tagSubGo rest none
      else ' ' :: tagSubGo rest none
    else tagSubGo rest (some (c :: buf))

/-- Embedding of `_strip_html` (hackernews.py lines 15-19): falsy input
yields the empty string; otherwise tags are replaced by spaces and
whitespace is normalized.  HTML entity unescaping (`html.unescape`) is
modelled as the identity; it rewrites entity spellings only. -/
def hnStripHtml (value : String) : String :=
  if value = "" then ""
  else normalizeWs (String.mk (tagSubGo value.data none))

/-- One Algolia hit as the HackerNews adapter reads it.  `objectID` is
the id with the empty string standing for a falsy or missing value;
`createdAtParsed` is the result of parsing `created_at` with `none`
standing for a missing field or a parse failure (the adapter then falls
back to the current time). -/
structure HnHit where
  objectID : String
  createdAtParsed : Option Int
  title : Option String
  storyTitle : Option String
  commentText : Option String
  storyText : Option String
  url : Option String
  storyUrl : Option String
  author : Option String
deriving DecidableEq, Repr

/-- The `hitsPerPage` request parameter (hackernews.py line 30). -/
def hn_hits_per_page (limit : Int) : Int := min (max limit 1) 100

/-- The per-hit body of `HackerNewsSource.search` (hackernews.py lines
38-65).  Option fields follow Python falsy-or chains (`none` = falsy). -/
def hnConvert (nowT : Int) (hit : HnHit) : Option Mention :=
  if hit.objectID = "" then none
  else
    let published_at := hit.createdAtParsed.getD nowT
    let title := ((hit.title <|> hit.storyTitle).getD "Hacker News mention")
    let excerpt := hnStripHtml ((hit.commentText <|> hit.storyText).getD "")
    let url := ((hit.url <|> hit.storyUrl).getD
      ("https://news.ycombinator.com/item?id=" ++ hit.objectID))
    some { platform := "hackernews", external_id := hit.objectID, url := url,
           title := pyStrip title, body_excerpt := pySlice excerpt 500,
           author := hit.author, community := "Hacker News",
           published_at := published_at }

/-- Embedding of `HackerNewsSource.search` over a response payload's hit
list.  The `since` watermark only reaches the remote through the
`numericFilters` request parameter; the loop applies no local filter on
it.  A compliant remote returns at most `hn_hits_per_page limit` hits. -/
def hackernews_search (nowT : Int) (hits : List HnHit) : List Mention :=
  hits.filterMap (hnConvert nowT)

/-- One GraphQL search node as the GitHub Discussions adapter reads it.
`id` and `url` model `str(node.get(...) or "")`; `createdAt` and
`updatedAt` are the results of `_parse_dt` (`none` = missing or
unparsable); `repoName` and `repoOwner` model the stringified repository
fields with the empty string for missing values. -/
structure GhNode where
  id : String
  url : String
  title : Option String
  bodyText : Option String
  createdAt : Option Int
  updatedAt : Option Int
  authorLogin : Option String
  repoName : String
  repoOwner : String
deriving DecidableEq, Repr

/-- The `first` GraphQL variable (github_discussions.py line 52). -/
def gh_first (limit : Int) : Int := min (max limit 1) 50

/-- `updated_at or created_at or now` (github_discussions.py line 95). -/
def ghEffectiveTime (nowT : Int) (node : GhNode) : Int :=
  ((node.updatedAt <|> node.createdAt).getD nowT)

/-- The per-node body of `GitHubDiscussionsSource.search`
(github_discussions.py lines 84-135): skip nodes with a blank id or
url, skip nodes whose updated-or-created time predates `since`, and
publish with the created time when present (which may itself predate
`since`). -/
def ghConvert (since nowT : Int) (node : GhNode) : Option Mention :=
  let external_id := pyStrip node.id
  let url := pyStrip node.url
  if external_id = "" ∨ url = "" then none
  else
    let effective_time := ghEffectiveTime nowT node
    if effective_time < since then none
    else
      let published_at := node.createdAt.getD effective_time
      let title := pyStrip (node.title.getD "GitHub discussion mention")
      let body := node.bodyText.getD ""
      let repo_name := pyStrip node.repoName
      let owner_login := pyStrip node.repoOwner
      let community :=
        if repo_name ≠ "" ∧ owner_login ≠ "" then owner_login ++ "/" ++ repo_name
        else if repo_name ≠ "" then repo_name
        else "GitHub Discussions"
      some { platform := "github_discussions", external_id := external_id,
             url := url, title := title,
             body_excerpt := pySlice (normalizeWs body) 500,
             author := node.authorLogin, community := community,
             published_at := published_at }

/-- Embedding of `GitHubDiscussionsSource.search` over a response
payload's node list.  The `limit` argument only shapes the requested
page size `gh_first limit`; the loop applies no local count truncation.
A compliant remote returns at most `gh_first limit` nodes. -/
def github_discussions_search (since nowT : Int) (nodes : List GhNode) :
    List Mention :=
  nodes.filterMap (ghConvert since nowT)

/-- One listing child as the Reddit adapter reads it.  `createdUtc` is
the epoch timestamp (converted to this model's microsecond unit);
`name` models the thing id with the empty string for falsy values;
Option fields follow Python falsy-or chains. -/
structure RedditChild where
  createdUtc : Option Int
  name : String
  permalink : Option String
  linkPermalink : Option String
  urlField : Option String
  title : Option String
  linkTitle : Option String
  selftext : Option String
  body : Option String
  author : Option String
  subreddit : Option String
deriving DecidableEq, Repr

/-- The `limit` request parameter (reddit.py line 58). -/
def reddit_limit_param (limit : Int) : Int := min (max limit 1) 100

/-- `permalink or link_permalink`, then
`f"https://reddit.com{permalink}" if permalink else data.get("url")`
(reddit.py lines 91-92). -/
def redditUrl (child : RedditChild) : Option String :=
  match child.permalink <|> child.linkPermalink with
  | some p => some ("https://reddit.com" ++ p)
  | none => child.urlField

/-- The per-child body of `RedditSource.search` (reddit.py lines
76-111): skip children without a timestamp, skip those published before
`since`, skip those without a thing id or resolvable url. -/
def redditConvert (since : Int) (child : RedditChild) : Option Mention :=
  match child.createdUtc with
  | none => none
  | some published_at =>
    if published_at < since then none
    else if child.name = "" then none
    else
      match redditUrl child with
      | none => none
      | some u =>
        let title := ((child.title <|> child.linkTitle).getD "Reddit mention")
        let body := (child.selftext <|> child.body).getD ""
        let community :=
          match child.subreddit with
          | some sub => "r/" ++ sub
          | none => "Reddit"
        some { platform := "reddit", external_id := child.name, url := u,
               title := pyStrip title, body_excerpt := pySlice (normalizeWs body) 500,
               author := child.author, community := community,
               published_at := published_at }

/-- Embedding of `RedditSource.search` over a response payload's child
list. -/
def reddit_search (since : Int) (children : List RedditChild) : List Mention :=
  children.filterMap (redditConvert since)

/-! ## Concrete fixtures for witnesses and counterexamples -/

/-- Settings mirroring the documented defaults, with no per-source
override dictionaries populated. -/
def cfg0 : Settings :=
  { poll_interval_minutes := 15, overlap_minutes := 3, per_source_limit := 40,
    retry_base_seconds := 60, retry_max_seconds := 1800, max_alert_retries := 3,
    source_poll_interval_minutes := fun _ => none,
    source_daily_request_limit := fun _ => none }

/-- Settings with a daily request limit of 1 for GitHub Discussions. -/
def cfg1 : Settings :=
  { cfg0 with source_daily_request_limit :=
      fun src => if src = "github_discussions" then some 1 else none }

/-- A due HackerNews task. -/
def task0 : SourceTask :=
  { keyword_id := 1, user_id := 2, brand_id := none, query := "signalze",
    source := "hackernews", last_checked_at := none }

/-- A due GitHub Discussions task. -/
def task1 : SourceTask :=
  { keyword_id := 1, user_id := 2, brand_id := none, query := "signalze",
    source := "github_discussions", last_checked_at := some 7000000000 }

/-- The all-zero counter map (fresh `defaultdict(int)`). -/
def zeroCounters : String → Nat := fun _ => 0

/-- A counter map recording one GitHub Discussions request today. -/
def oneGhCounter : String → Nat :=
  fun src => if src = "github_discussions" then 1 else 0

/-- Recognizer for `enqueue_alert` calls in a trace. -/
def isEnqueueCall : DbCall → Bool
  | DbCall.enqueueAlert _ _ _ => true
  | _ => false

/-- Number of `enqueue_alert` calls in a trace. -/
def countEnqueueCalls (calls : List DbCall) : Nat :=
  (calls.filter isEnqueueCall).length

/-- A fresh stats map. -/
def stats0 : Stats := {}

/-- An 801-character error message. -/
def longErr : String := String.mk (List.replicate 801 'x')

/-- A discussion node updated after the watermark but created before it,
inside the page a compliant remote may return for `limit = 0`. -/
def cexNode : GhNode :=
  { id := "D1", url := "https://github.com/acme/repo/discussions/1",
    title := some "old discussion, new activity", bodyText := some "body",
    createdAt := some 0, updatedAt := some 120, authorLogin := some "octocat",
    repoName := "repo", repoOwner := "acme" }

/-! ## Helper lemmas -/

/-- A Python slice `s[:n]` has at most `n` characters. -/
theorem pySlice_length_le (s : String) (n : Nat) : (pySlice s n).length ≤ n := by
  show (List.take n s.data).length ≤ n
  rw [List.length_take]
  exact min_le_left _ _

/-- `_to_optional_int` only returns a set value when it is at least 1. -/
theorem to_optional_int_some_pos (v : Option String) (m : Int)
    (h : to_optional_int v = some (some m)) : 1 ≤ m := by
  cases v with
  | none => simp [to_optional_int] at h
  | some s =>
    simp only [to_optional_int] at h
    by_cases he : (pyStrip s).isEmpty
    · rw [if_pos he] at h
      simp at h
    · rw [if_neg he] at h
      cases hp : pyIntParse (pyStrip s) with
      | none => rw [hp] at h; simp at h
      | some p =>
        rw [hp] at h
        by_cases hlt : p < 1
        · simp [hlt] at h
        · simp [hlt] at h
          omega

/-! ## Claim theorems -/

/-- C3: for every alert retry number `n = retry_count + 1 ≥ 1` the retry
delay equals `min(retry_base_seconds * 2^(n-1), retry_max_seconds)`, and
`mark_alert_retry` sets status failed when `n < max_retries` and the
terminal dead_letter state (never fetched again) when `n ≥ max_retries`. -/
theorem C3_alert_retry_delay_and_status
    (base maxSec max_retries next_attempt_at : Int) (error : String) (n : Int)
    (hn : 1 ≤ n) :
    retry_delay_seconds base maxSec n = min (base * 2 ^ (n - 1).toNat) maxSec
    ∧ (mark_alert_retry n max_retries next_attempt_at error).status
        = (if n < max_retries then "failed" else "dead_letter")
    ∧ (∀ next_at now rc mr,
        alert_fetch_eligible "dead_letter" next_at now rc mr = false) := by
  refine ⟨?_, rfl, fun _ _ _ _ => rfl⟩
  show min (base * 2 ^ (max (n - 1) 0).toNat) maxSec = _
  rw [max_eq_left (by omega : (0 : Int) ≤ n - 1)]

/-- C3 witness at `n = 1` with the documented default settings. -/
theorem C3_witness :
    retry_delay_seconds 60 1800 1 = min (60 * 2 ^ ((1 : Int) - 1).toNat) 1800
    ∧ (mark_alert_retry 1 3 0 "boom").status
        = (if (1 : Int) < 3 then "failed" else "dead_letter")
    ∧ (∀ next_at now rc mr,
        alert_fetch_eligible "dead_letter" next_at now rc mr = false) :=
  C3_alert_retry_delay_and_status 60 1800 3 0 "boom" 1 (by norm_num)

/-- C6 counterexample: the run-level error recorded by the failure path
of `run_once` through `finish_worker_run` is stored untruncated, so an
801-character message is persisted with 801 characters. -/
theorem C6_counterexample :
    (run_once_failure_record longErr).error = some longErr
    ∧ 800 < longErr.length := by
  refine ⟨rfl, ?_⟩
  show 800 < (List.replicate 801 'x').length
  rw [List.length_replicate]
  omega

/-- C6 amended: the errors recorded by `mark_source_task_error` and
`mark_alert_retry` are truncated to at most 800 characters, but
`finish_worker_run` stores the run-level error string unmodified. -/
theorem C6_error_truncation
    (prev : Option SourceStateRow) (now : Int) (e : String) (b : Int)
    (rc mr na : Int) (status : String) :
    ((mark_source_task_error prev now e b).last_error.getD "").length ≤ 800
    ∧ ((mark_alert_retry rc mr na e).last_error.getD "").length ≤ 800
    ∧ (finish_worker_run status (some e)).error = some e :=
  ⟨pySlice_length_le e 800, pySlice_length_le e 800, rfl⟩

/-- C7 counterexample: with default true, the value false parses as
false, not as the default as the claim states. -/
theorem C7_counterexample : ¬ (to_bool (some "false") true = true) := by decide

/-- C7 amended: an unset variable yields the default; a set value parses
as true exactly when its lowercasing is in the accepted set, and as
false — not the default — otherwise. -/
theorem C7_bool_parsing (v : String) (d : Bool) :
    to_bool none d = d
    ∧ to_bool (some v) d = (["1", "true", "yes", "on"].contains (pyLower v))
    ∧ to_bool (some "false") d = false :=
  ⟨rfl, rfl, by rfl⟩

/-- C9: both state upserts clamp their interval to at least one minute,
so the stored `next_poll_at` is at least one minute after the reference
time (`checked_at` on success, now on error), hence strictly later. -/
theorem C9_next_poll_min_advance
    (prev prev2 : Option SourceStateRow) (checked_at poll_minutes : Int)
    (now : Int) (e : String) (backoff_minutes : Int) :
    checked_at + usPerMinute
        ≤ (mark_source_task_success prev checked_at poll_minutes).next_poll_at
    ∧ now + usPerMinute
        ≤ (mark_source_task_error prev2 now e backoff_minutes).next_poll_at
    ∧ checked_at < (mark_source_task_success prev checked_at poll_minutes).next_poll_at
    ∧ now < (mark_source_task_error prev2 now e backoff_minutes).next_poll_at := by
  have h1 : (1 : Int) ≤ max poll_minutes 1 := le_max_right _ _
  have h2 : (1 : Int) ≤ max backoff_minutes 1 := le_max_right _ _
  have hm : (0 : Int) < usPerMinute := by norm_num [usPerMinute]
  refine ⟨?_, ?_, ?_, ?_⟩ <;>
    simp only [mark_source_task_success, mark_source_task_error] <;> nlinarith

/-- C10: a `SOURCE_<SLUG>_DAILY_REQUEST_LIMIT` value that is empty,
zero or negative parses as unset, so under free-tier mode the registry
limit is installed; every effective limit assembled this way for a
registry source is at least 1, so a zero budget cannot be configured. -/
theorem C10_daily_limit_env_parsing
    (v : String) (n : Int) (d : SourceDefinition) :
    to_optional_int (some "") = some none
    ∧ to_optional_int (some "0") = some none
    ∧ to_optional_int (some "-5") = some none
    ∧ (pyIntParse (pyStrip v) = some n → n < 1 →
        to_optional_int (some v) = some none)
    ∧ (d ∈ SOURCE_DEFINITIONS → ∀ (env_value : Option String) (r : Option Int),
        effective_daily_limit true env_value d.free_tier_daily_limit = some r →
        ∃ k, r = some k ∧ 1 ≤ k) := by
  refine ⟨by decide, by decide, by decide, ?_, ?_⟩
  · intro hp hlt
    simp only [to_optional_int]
    by_cases he : (pyStrip v).isEmpty
    · rw [if_pos he]
    · rw [if_neg he, hp]
      simp [hlt]
  · intro hd env r hr
    unfold effective_daily_limit at hr
    cases hto : to_optional_int env with
    | none => rw [hto] at hr; simp at hr
    | some dl =>
      rw [hto] at hr
      cases dl with
      | none =>
        have hr2 : d.free_tier_daily_limit = r := by simpa using hr
        subst hr2
        fin_cases hd <;> exact ⟨_, rfl, by norm_num⟩
      | some m =>
        have hr2 : some m = r := by simpa using hr
        subst hr2
        exact ⟨m, rfl, to_optional_int_some_pos env m hto⟩

/-- C10 witness: the value 0 for HackerNews under free-tier mode yields
the registry limit 2000, which is at least 1. -/
theorem C10_witness : ∃ k, (some 2000 : Option Int) = some k ∧ 1 ≤ k :=
  (C10_daily_limit_env_parsing "0" 0
    { key := "hackernews", env_slug := "HN", default_enabled := true,
      free_tier_daily_limit := some 2000, has_builder := true }).2.2.2.2
    (by decide) (some "0") (some 2000) (by decide)

/-- C1 counterexample: when the adapter call raises, the per-source
counter is NOT incremented — the increments sit after the search call
inside the try block, so the claimed charge-on-raise does not happen. -/
theorem C1_counterexample :
    ¬ ((process_source_task cfg0 task0 true (Except.error "boom") 0 0
          zeroCounters zeroCounters stats0).today "hackernews"
        = zeroCounters "hackernews" + 1) := by decide

/-- C1 amended: after the adapter search returns, `today[task.source]`
and `this_run[task.source]` are each incremented by exactly 1 regardless
of result count; but when the adapter call raises, neither counter is
incremented — the failing request does not count toward the daily cap
and the task is marked in error instead. -/
theorem C1_budget_charged_on_return
    (s : Settings) (task : SourceTask) (steps : List MentionStep)
    (exc : String) (now : Int) (us : Nat) (today run : String → Nat) (st : Stats)
    (hbudget : source_daily_limit_reached s task.source today = false) :
    ((process_source_task s task true (Except.ok steps) now us today run st).today
          task.source = today task.source + 1
      ∧ (process_source_task s task true (Except.ok steps) now us today run
          st).this_run task.source = run task.source + 1)
    ∧ ((process_source_task s task true (Except.error exc) now us today run
          st).today task.source = today task.source
      ∧ (process_source_task s task true (Except.error exc) now us today run
          st).this_run task.source = run task.source) := by
  unfold process_source_task
  simp [hbudget, bump]

/-- C1 witness: concrete evaluation with an empty result list and a
raising adapter on a fresh counter map. -/
theorem C1_witness :
    ((process_source_task cfg0 task0 true (Except.ok []) 0 0 zeroCounters
          zeroCounters stats0).today task0.source
        = zeroCounters task0.source + 1
      ∧ (process_source_task cfg0 task0 true (Except.ok []) 0 0 zeroCounters
          zeroCounters stats0).this_run task0.source
        = zeroCounters task0.source + 1)
    ∧ ((process_source_task cfg0 task0 true (Except.error "boom") 0 0
          zeroCounters zeroCounters stats0).today task0.source
        = zeroCounters task0.source
      ∧ (process_source_task cfg0 task0 true (Except.error "boom") 0 0
          zeroCounters zeroCounters stats0).this_run task0.source
        = zeroCounters task0.source) :=
  C1_budget_charged_on_return cfg0 task0 [] "boom" 0 0 zeroCounters zeroCounters
    stats0 (by decide)

/-- C2: when `today[task.source]` has reached a configured daily limit,
the adapter search is never invoked for the task; the only store call is
`mark_source_task_error` with the budget message and a backoff of
minutes-until-UTC-midnight lying in `[1, 1440]`; neither counter map
changes and only `tasks_deferred_budget` is incremented. -/
theorem C2_budget_admission
    (s : Settings) (task : SourceTask)
    (outcome : Except String (List MentionStep)) (now : Int) (us : Nat)
    (today run : String → Nat) (st : Stats) (limit : Int)
    (hlim : s.daily_request_limit_for_source task.source = some limit)
    (hreach : limit ≤ (today task.source : Int)) :
    (process_source_task s task true outcome now us today run st).search_invoked
        = false
    ∧ (process_source_task s task true outcome now us today run st).calls
        = [DbCall.markSourceTaskError task.keyword_id task.source
            "Daily source request budget reached; deferred until UTC day rollover"
            (minutes_until_utc_day_rollover us : Int)]
    ∧ 1 ≤ minutes_until_utc_day_rollover us
    ∧ minutes_until_utc_day_rollover us ≤ 1440
    ∧ (process_source_task s task true outcome now us today run st).today = today
    ∧ (process_source_task s task true outcome now us today run st).this_run = run
    ∧ (process_source_task s task true outcome now us today run st).stats
        = { st with tasks_deferred_budget := st.tasks_deferred_budget + 1 } := by
  have hb : source_daily_limit_reached s task.source today = true := by
    unfold source_daily_limit_reached
    rw [hlim]
    simpa using hreach
  have hmax : minutes_until_utc_day_rollover us ≤ 1440 := by
    unfold minutes_until_utc_day_rollover
    refine max_le ?_ (by norm_num)
    calc (usPerDayN - us) / 60000000
        ≤ usPerDayN / 60000000 := Nat.div_le_div_right (Nat.sub_le _ _)
      _ = 1440 := by norm_num [usPerDayN]
  refine ⟨?_, ?_, le_max_right _ _, hmax, ?_, ?_, ?_⟩ <;>
    · unfold process_source_task
      simp [hb]

/-- C2 witness: GitHub Discussions with daily limit 1 and one request
already counted today. -/
theorem C2_witness :
    (process_source_task cfg1 task1 true (Except.ok []) 0 0 oneGhCounter
        zeroCounters stats0).search_invoked = false
    ∧ (process_source_task cfg1 task1 true (Except.ok []) 0 0 oneGhCounter
        zeroCounters stats0).calls
        = [DbCall.markSourceTaskError task1.keyword_id task1.source
            "Daily source request budget reached; deferred until UTC day rollover"
            (minutes_until_utc_day_rollover 0 : Int)]
    ∧ 1 ≤ minutes_until_utc_day_rollover 0
    ∧ minutes_until_utc_day_rollover 0 ≤ 1440
    ∧ (process_source_task cfg1 task1 true (Except.ok []) 0 0 oneGhCounter
        zeroCounters stats0).today = oneGhCounter
    ∧ (process_source_task cfg1 task1 true (Except.ok []) 0 0 oneGhCounter
        zeroCounters stats0).this_run = zeroCounters
    ∧ (process_source_task cfg1 task1 true (Except.ok []) 0 0 oneGhCounter
        zeroCounters stats0).stats
        = { stats0 with
            tasks_deferred_budget := stats0.tasks_deferred_budget + 1 } :=
  C2_budget_admission cfg1 task1 (Except.ok []) 0 0 oneGhCounter zeroCounters
    stats0 1 (by decide) (by decide)

/-- C4: for a task that passes admission, the `since` watermark handed
to the adapter is the last-checked timestamp (default now minus one day)
minus the nonnegatively-clamped overlap, whatever the search outcome;
and `mark_source_task_error` rewrites `next_poll_at` and `last_error`
while leaving `last_checked_at` unchanged, so a later successful poll
still covers the missed window. -/
theorem C4_since_watermark_and_failure_frame
    (s : Settings) (task : SourceTask)
    (outcome : Except String (List MentionStep)) (now : Int) (us : Nat)
    (today run : String → Nat) (st : Stats)
    (hbudget : source_daily_limit_reached s task.source today = false) :
    (process_source_task s task true outcome now us today run st).since_used
      = some ((task.last_checked_at.getD (now - (usPerDayN : Int)))
          - (max s.overlap_minutes 0) * usPerMinute)
    ∧ (∀ (row : SourceStateRow) (tnow : Int) (e : String) (b : Int),
        (mark_source_task_error (some row) tnow e b).last_checked_at
            = row.last_checked_at
        ∧ (mark_source_task_error (some row) tnow e b).next_poll_at
            = tnow + (max b 1) * usPerMinute
        ∧ (mark_source_task_error (some row) tnow e b).last_error
            = some (pySlice e 800)) := by
  constructor
  · unfold process_source_task
    cases outcome <;> simp [hbudget, compute_since]
  · exact fun row tnow e b => ⟨rfl, rfl, rfl⟩

/-- C4 witness: a task with a set watermark and a raising adapter. -/
theorem C4_witness :
    (process_source_task cfg0 task1 true (Except.error "boom") 0 0 zeroCounters
        zeroCounters stats0).since_used
      = some ((task1.last_checked_at.getD (0 - (usPerDayN : Int)))
          - (max cfg0.overlap_minutes 0) * usPerMinute)
    ∧ (∀ (row : SourceStateRow) (tnow : Int) (e : String) (b : Int),
        (mark_source_task_error (some row) tnow e b).last_checked_at
            = row.last_checked_at
        ∧ (mark_source_task_error (some row) tnow e b).next_poll_at
            = tnow + (max b 1) * usPerMinute
        ∧ (mark_source_task_error (some row) tnow e b).last_error
            = some (pySlice e 800)) :=
  C4_since_watermark_and_failure_frame cfg0 task1 (Except.error "boom") 0 0
    zeroCounters zeroCounters stats0 (by decide)

/-- C5: over any task's mention loop, each deduped match adds one to
`matches_deduped` and enqueues nothing; each created match adds one to
`matches_created` and calls `enqueue_alert` exactly once, adding one to
`alerts_enqueued` when a new alert row was created and to
`alerts_deduped` otherwise; every mention is upserted. -/
theorem C5_match_dedupe_alert_chain (task : SourceTask) (steps : List MentionStep)
    (st : Stats) :
    (process_mentions task steps st).1.matches_deduped
        = st.matches_deduped + (steps.filter (fun m => !m.match_created)).length
    ∧ (process_mentions task steps st).1.matches_created
        = st.matches_created + (steps.filter (fun m => m.match_created)).length
    ∧ countEnqueueCalls (process_mentions task steps st).2
        = (steps.filter (fun m => m.match_created)).length
    ∧ (process_mentions task steps st).1.alerts_enqueued
        = st.alerts_enqueued
          + (steps.filter (fun m => m.match_created && m.alert_created)).length
    ∧ (process_mentions task steps st).1.alerts_deduped
        = st.alerts_deduped
          + (steps.filter (fun m => m.match_created && !m.alert_created)).length
    ∧ (process_mentions task steps st).1.mentions_upserted
        = st.mentions_upserted + steps.length := by
  induction steps generalizing st with
  | nil => simp [process_mentions, countEnqueueCalls]
  | cons step rest ih =>
    obtain ⟨ih1, ih2, ih3, ih4, ih5, ih6⟩ := ih (process_mention task step st).1
    by_cases h1 : step.match_created
    · by_cases h2 : step.alert_created
      · simp [process_mentions, process_mention, h1, h2, countEnqueueCalls, isEnqueueCall, List.filter_append, List.filter_cons] at ih1 ih2 ih3 ih4 ih5 ih6 ⊢
        omega
      · simp [process_mentions, process_mention, h1, h2, countEnqueueCalls, isEnqueueCall, List.filter_append, List.filter_cons] at ih1 ih2 ih3 ih4 ih5 ih6 ⊢
        omega
    · simp [process_mentions, process_mention, h1, countEnqueueCalls, isEnqueueCall, List.filter_append, List.filter_cons] at ih1 ih2 ih3 ih4 ih5 ih6 ⊢
      omega

/-- A node converted by the GitHub adapter passed the updated-or-created
filter, and its published time is its created time when present. -/
theorem ghConvert_effective (since nowT : Int) (node : GhNode) (m : Mention)
    (h : ghConvert since nowT node = some m) :
    since ≤ ghEffectiveTime nowT node
    ∧ m.published_at = node.createdAt.getD (ghEffectiveTime nowT node) := by
  simp only [ghConvert] at h
  by_cases h1 : pyStrip node.id = "" ∨ pyStrip node.url = ""
  · rw [if_pos h1] at h
    exact absurd h (by simp)
  · rw [if_neg h1] at h
    by_cases h2 : ghEffectiveTime nowT node < since
    · rw [if_pos h2] at h
      exact absurd h (by simp)
    · rw [if_neg h2] at h
      have hm := Option.some.inj h
      subst hm
      exact ⟨by omega, rfl⟩

/-- A child converted by the Reddit adapter was published at or after
the watermark. -/
theorem redditConvert_published (since : Int) (child : RedditChild) (m : Mention)
    (h : redditConvert since child = some m) : since ≤ m.published_at := by
  simp only [redditConvert] at h
  cases hcu : child.createdUtc with
  | none => rw [hcu] at h; simp at h
  | some p =>
    rw [hcu] at h
    simp only at h
    by_cases hlt : p < since
    · rw [if_pos hlt] at h
      simp at h
    · rw [if_neg hlt] at h
      by_cases hname : child.name = ""
      · rw [if_pos hname] at h
        simp at h
      · rw [if_neg hname] at h
        cases hu : redditUrl child with
        | none => rw [hu] at h; simp at h
        | some u =>
          rw [hu] at h
          simp only at h
          have hm := Option.some.inj h
          subst hm
          show since ≤ p
          omega

/-- C8 counterexample: for `limit = 0` the GitHub adapter requests a
page of one (`gh_first 0 = 1`); a single compliant node updated inside
the window but created before it is returned, so the result has more
than `limit` elements and its `published_at` (the creation time)
predates `since`. -/
theorem C8_counterexample :
    gh_first 0 = 1
    ∧ (List.length [cexNode] : Int) ≤ gh_first 0
    ∧ (github_discussions_search 100 150 [cexNode]).length = 1
    ∧ ¬ ((github_discussions_search 100 150 [cexNode]).length ≤ 0)
    ∧ (github_discussions_search 100 150 [cexNode]).map Mention.published_at
        = [0]
    ∧ (∃ m ∈ github_discussions_search 100 150 [cexNode],
          m.published_at < 100) := by
  refine ⟨by decide, by decide, by decide, by decide, by decide, by decide⟩

/-- C8 amended: each adapter requests at most
`min(max(limit,1), cap)` results from the remote (cap 50 for GitHub,
100 for HackerNews and Reddit) — at most `limit` when `limit ≥ 1`, but
one result may still come back for `limit = 0` — and never truncates the
parsed payload below the payload's own length.  The GitHub adapter
filters by the updated-or-created time, so every returned mention
satisfies `since ≤` that effective time while its `published_at` is the
creation time; HackerNews applies no local `since` filter (the bound
lives in the remote `numericFilters` request parameter); Reddit filters
`published_at ≥ since` locally. -/
theorem C8_adapter_window_and_page_size
    (limit since nowT : Int) (nodes : List GhNode) (hits : List HnHit)
    (children : List RedditChild) (hlim : 1 ≤ limit) :
    (gh_first limit ≤ limit ∧ hn_hits_per_page limit ≤ limit
      ∧ reddit_limit_param limit ≤ limit)
    ∧ (github_discussions_search since nowT nodes).length ≤ nodes.length
    ∧ (∀ m ∈ github_discussions_search since nowT nodes,
        ∃ node ∈ nodes, since ≤ ghEffectiveTime nowT node
          ∧ m.published_at = node.createdAt.getD (ghEffectiveTime nowT node))
    ∧ (hackernews_search nowT hits).length ≤ hits.length
    ∧ (reddit_search since children).length ≤ children.length
    ∧ (∀ m ∈ reddit_search since children, since ≤ m.published_at) := by
  refine ⟨⟨?_, ?_, ?_⟩, ?_, ?_, ?_, ?_, ?_⟩
  · show min (max limit 1) 50 ≤ limit
    rw [max_eq_left hlim]
    exact min_le_left _ _
  · show min (max limit 1) 100 ≤ limit
    rw [max_eq_left hlim]
    exact min_le_left _ _
  · show min (max limit 1) 100 ≤ limit
    rw [max_eq_left hlim]
    exact min_le_left _ _
  · exact List.length_filterMap_le _ _
  · intro m hm
    unfold github_discussions_search at hm
    rw [List.mem_filterMap] at hm
    obtain ⟨node, hnode, hconv⟩ := hm
    exact ⟨node, hnode, ghConvert_effective since nowT node m hconv⟩
  · exact List.length_filterMap_le _ _
  · exact List.length_filterMap_le _ _
  · intro m hm
    unfold reddit_search at hm
    rw [List.mem_filterMap] at hm
    obtain ⟨child, hchild, hconv⟩ := hm
    exact redditConvert_published since child m hconv

/-- C8 witness: the documented default per-source limit 40. -/
theorem C8_witness :
    (gh_first 40 ≤ 40 ∧ hn_hits_per_page 40 ≤ 40
      ∧ reddit_limit_param 40 ≤ 40)
    ∧ (github_discussions_search 0 0 []).length ≤ ([] : List GhNode).length
    ∧ (∀ m ∈ github_discussions_search 0 0 [],
        ∃ node ∈ ([] : List GhNode), (0 : Int) ≤ ghEffectiveTime 0 node
          ∧ m.published_at = node.createdAt.getD (ghEffectiveTime 0 node))
    ∧ (hackernews_search 0 []).length ≤ ([] : List HnHit).length
    ∧ (reddit_search 0 []).length ≤ ([] : List RedditChild).length
    ∧ (∀ m ∈ reddit_search 0 [], (0 : Int) ≤ m.published_at) :=
  C8_adapter_window_and_page_size 40 0 0 [] [] [] (by norm_num)

end Signalze
